import Mathlib

/-!
Verification development for the Tomahawk `GlobalActionManager`
(inbound/outbound action-link protocol).

Strings are modelled as lists of characters (`Str`); the Qt string and URL
operations used by the source (`contains`, `mid`, `split`, `replace`,
`startsWith`, `endsWith`, percent decoding, query-item access) are embedded
as executable functions on `Str`.  Side effects (pipeline resolution, queue
insertion, playlist creation, signal connections) are recorded as values of
an `Effect` type, and each command handler returns the boolean it returns in
the source together with the list of effects it performs.
-/

namespace Tomahawk

/-- Strings as lists of characters. -/
abbrev Str := List Char

/-- Convert a Lean string literal to the character-list representation. -/
def str (s : String) : Str := s.data

/-- `QString::contains(pat)`: `pat` occurs as a contiguous substring. -/
def hasSubstr (pat : Str) : Str → Bool
  | [] => pat.isPrefixOf ([] : Str)
  | c :: rest => pat.isPrefixOf (c :: rest) || hasSubstr pat rest

/-- `cmd.replace("%2B", "%20")`: left-to-right replacement of every
occurrence of `%2B` by `%20`, as `QString::replace` does. -/
def replacePlus : Str → Str
  | [] => []
  | [c] => [c]
  | [c1, c2] => [c1, c2]
  | c1 :: c2 :: c3 :: rest =>
    if c1 = '%' ∧ c2 = '2' ∧ c3 = 'B' then
      '%' :: '2' :: '0' :: replacePlus rest
    else
      c1 :: replacePlus (c2 :: c3 :: rest)

/-- Value of one hexadecimal digit, if the character is one (digits,
uppercase and lowercase letters, by character code). -/
def hexVal (c : Char) : Option Nat :=
  let n := c.toNat
  if 48 ≤ n ∧ n ≤ 57 then some (n - 48)
  else if 65 ≤ n ∧ n ≤ 70 then some (n - 55)
  else if 97 ≤ n ∧ n ≤ 102 then some (n - 87)
  else none

/-- Percent-decoding as performed by `QUrl` when returning decoded path and
query components: each valid `%XY` escape becomes the character `16*X+Y`. -/
def pdecode : Str → Str
  | '%' :: h1 :: h2 :: rest =>
    match hexVal h1, hexVal h2 with
    | some a, some b => Char.ofNat (16 * a + b) :: pdecode rest
    | _, _ => '%' :: pdecode (h1 :: h2 :: rest)
  | c :: rest => c :: pdecode rest
  | [] => []

/-- One hexadecimal digit (uppercase), for percent-encoding. -/
def hexDigit (n : Nat) : Char :=
  if n < 10 then Char.ofNat ('0'.toNat + n) else Char.ofNat ('A'.toNat + n - 10)

/-- Characters that `QUrl::addQueryItem` percent-encodes in a query value
(query delimiters and characters that are not valid literally).  The single
quote is deliberately not in this set: `QUrl` leaves it unencoded, which is
why the source re-escapes it by hand when writing to the clipboard. -/
def needsEscape (c : Char) : Bool :=
  c = '&' || c = '=' || c = '#' || c = '%' || c = '+' || c = '?' || c = ' '

/-- Percent-encode one character for a query value. -/
def pencodeChar (c : Char) : Str :=
  if needsEscape c then ['%', hexDigit (c.toNat / 16 % 16), hexDigit (c.toNat % 16)]
  else [c]

/-- Percent-encode a query value (`QUrl::addQueryItem` on the value). -/
def pencode (s : Str) : Str := (s.map pencodeChar).flatten

/-- Render an ordered list of query items as the `?k=v&k=v` tail that `QUrl`
appends to the URL text, empty when there are no items. -/
def renderQuery (items : List (Str × Str)) : Str :=
  match items with
  | [] => []
  | _ => '?' :: List.intercalate (str "&")
      (items.map (fun p => p.1 ++ '=' :: pencode p.2))

/-- A parsed URL as the handlers see it through `QUrl`: the decoded path
split is taken by each handler itself, so we keep the decoded path segments
and the decoded query items (ordered, duplicates preserved). -/
structure ParsedUrl where
  pathSegs : List Str
  queryItems : List (Str × Str)
deriving DecidableEq, Repr

/-- Parse one `k=v` query component (decoded key and value). -/
def parseKV (kv : Str) : Str × Str :=
  (pdecode (kv.takeWhile (fun c => c != '=')),
   pdecode ((kv.dropWhile (fun c => c != '=')).drop 1))

/-- `QUrl::fromEncoded(cmd)`: path up to the first `?`, query items after it.
The path is percent-decoded (as `QUrl::path()` returns it) and kept split on
`/` since every handler immediately splits it. -/
def parseUrl (cmd : Str) : ParsedUrl :=
  let rawPath := cmd.takeWhile (fun c => c != '?')
  let rawQuery := (cmd.dropWhile (fun c => c != '?')).drop 1
  { pathSegs := (pdecode rawPath).splitOn '/'
    queryItems :=
      match rawQuery with
      | [] => []
      | _ => (rawQuery.splitOn '&').map parseKV }

/-- `QUrl::hasQueryItem(k)`. -/
def hasQueryItem (u : ParsedUrl) (k : Str) : Bool :=
  (u.queryItems.find? (fun p => p.1 == k)).isSome

/-- `QUrl::queryItemValue(k)`: value of the first item with the given key,
empty string when absent. -/
def queryItemValue (u : ParsedUrl) (k : Str) : Str :=
  match u.queryItems.find? (fun p => p.1 == k) with
  | some p => p.2
  | none => []

/-! ## Data model: track queries, dynamic-playlist controls, effects -/

/-- A track query as built by `Query::get(artist, title, album)` plus the
optional result hint set when a `url` parameter is present. -/
structure TrackQuery where
  artist : Str
  title : Str
  album : Str
  hint : Option Str
deriving DecidableEq, Repr

/-- Accumulator of the scan loop `foreach (pair, queryItems) { if title...

else if artist... else if album... else if url... }` shared verbatim by
`handlePlayCommand`, `doQueueAdd` and `handleBookmarkCommand`. -/
structure ScannedParams where
  title : Str
  artist : Str
  album : Str
  urlStr : Str
deriving DecidableEq, Repr

/-- One iteration of the scan loop: each matching key overwrites the
variable. -/
def scanStep (acc : ScannedParams) (p : Str × Str) : ScannedParams :=
  if p.1 = str "title" then { acc with title := p.2 }
  else if p.1 = str "artist" then { acc with artist := p.2 }
  else if p.1 = str "album" then { acc with album := p.2 }
  else if p.1 = str "url" then { acc with urlStr := p.2 }
  else acc

/-- The whole scan loop over the query items. -/
def scanTrackParams (qi : List (Str × Str)) : ScannedParams :=
  qi.foldl scanStep ⟨[], [], [], []⟩

/-- `Query::get(artist, title, album)` followed by
`if (!urlStr.isEmpty()) q->setResultHint(urlStr)`. -/
def mkTrackQuery (s : ScannedParams) : TrackQuery :=
  { artist := s.artist, title := s.title, album := s.album
    hint := if s.urlStr = [] then none else some s.urlStr }

/-- The `queueSpotify` scan: `spotifyURL` and `spotifyURI` keys both
overwrite the same variable. -/
def scanSpotify (qi : List (Str × Str)) : Str :=
  qi.foldl
    (fun acc p =>
      if p.1 = str "spotifyURL" then p.2
      else if p.1 = str "spotifyURI" then p.2
      else acc) []

/-- Echonest `PlaylistParam` constants named by the source.  Their numeric
values live in the external `echonest/Playlist.h`; the source only ever uses
a named constant plus a small integer offset, so the match value of a control is
embedded as such a pair. -/
inductive EchoConst where
  | ArtistRadioType
  | ArtistType
  | ArtistDescriptionType
  | Variety
  | MinTempo
  | MinDuration
  | MinLoudness
  | MinDanceability
  | MinEnergy
  | ArtistMinFamiliarity
  | ArtistMinHotttnesss
  | SongMinHotttnesss
  | ArtistMinLongitude
  | ArtistMinLatitude
  | Key
  | Mode
  | Mood
  | Style
  | SongRadioType
deriving DecidableEq, Repr

/-- A dynamic-playlist control as built in `loadDynamicPlaylist`:
`createControl(ctype)`, `setInput(input)`, and
`setMatch(QString::number((int) matchBase + matchExtra))`. -/
structure Control where
  ctype : Str
  matchBase : EchoConst
  matchExtra : Int
  input : Str
deriving DecidableEq, Repr

/-- The per-parameter branch of the `foreach (param, url.queryItems())`
loop in `loadDynamicPlaylist`, in the branch order of the source.  An unmatched
parameter produces no control. -/
def controlOfParam (p : Str × Str) : Option Control :=
  if p.1 = str "artist" then
    some ⟨str "Artist", .ArtistRadioType, 0, p.2⟩
  else if p.1 = str "artist_limitto" then
    some ⟨str "Artist", .ArtistType, 0, p.2⟩
  else if p.1 = str "description" then
    some ⟨str "Artist Description", .ArtistDescriptionType, 0, p.2⟩
  else if p.1 = str "variety" then
    some ⟨str "Variety", .Variety, 0, p.2⟩
  else if (str "tempo").isPrefixOf p.1 then
    some ⟨str "Tempo", .MinTempo, if (str "_max").isSuffixOf p.1 then -1 else 0, p.2⟩
  else if (str "duration").isPrefixOf p.1 then
    some ⟨str "Duration", .MinDuration, if (str "_max").isSuffixOf p.1 then -1 else 0, p.2⟩
  else if (str "loudness").isPrefixOf p.1 then
    some ⟨str "Loudness", .MinLoudness, if (str "_max").isSuffixOf p.1 then -1 else 0, p.2⟩
  else if (str "danceability").isPrefixOf p.1 then
    some ⟨str "Danceability", .MinDanceability, if (str "_max").isSuffixOf p.1 then 1 else 0, p.2⟩
  else if (str "energy").isPrefixOf p.1 then
    some ⟨str "Energy", .MinEnergy, if (str "_max").isSuffixOf p.1 then 1 else 0, p.2⟩
  else if (str "artist_familiarity").isPrefixOf p.1 then
    some ⟨str "Artist Familiarity", .ArtistMinFamiliarity, if (str "_max").isSuffixOf p.1 then -1 else 0, p.2⟩
  else if (str "artist_hotttnesss").isPrefixOf p.1 then
    some ⟨str "Artist Hotttnesss", .ArtistMinHotttnesss, if (str "_max").isSuffixOf p.1 then -1 else 0, p.2⟩
  else if (str "song_hotttnesss").isPrefixOf p.1 then
    some ⟨str "Song Hotttnesss", .SongMinHotttnesss, if (str "_max").isSuffixOf p.1 then -1 else 0, p.2⟩
  else if (str "longitude").isPrefixOf p.1 then
    some ⟨str "Longitude", .ArtistMinLongitude, if (str "_max").isSuffixOf p.1 then 1 else 0, p.2⟩
  else if (str "latitude").isPrefixOf p.1 then
    some ⟨str "Latitude", .ArtistMinLatitude, if (str "_max").isSuffixOf p.1 then 1 else 0, p.2⟩
  else if p.1 = str "key" then
    some ⟨str "Key", .Key, 0, p.2⟩
  else if p.1 = str "mode" then
    some ⟨str "Mode", .Mode, 0, p.2⟩
  else if p.1 = str "mood" then
    some ⟨str "Mood", .Mood, 0, p.2⟩
  else if p.1 = str "style" then
    some ⟨str "Style", .Style, 0, p.2⟩
  else if p.1 = str "song" then
    some ⟨str "Song", .SongRadioType, 0, p.2⟩
  else none

/-- The control list accumulated by the loop in `loadDynamicPlaylist`. -/
def buildControls (qi : List (Str × Str)) : List Control :=
  qi.filterMap controlOfParam

/-- `GeneratorMode` of a dynamic playlist. -/
inductive GeneratorMode where
  | Static
  | OnDemand
deriving DecidableEq, Repr

/-- The dynamic playlist built and committed by `loadDynamicPlaylist`:
title, generator type, mode, control list, and whether the committed
revision also fixes the current entry set (the `Static` branch passes
`pl->entries()`). -/
structure StationDraft where
  mode : GeneratorMode
  title : Str
  ptype : Str
  controls : List Control
  withEntries : Bool
deriving DecidableEq, Repr

/-- Externally visible side effects performed by the handlers. -/
inductive Effect where
  | legacyXspf (url : Str)
  | legacyJspf (url : Str)
  | xspfImport (url : Str) (titleOverride : Str)
  | createPlaylist (title : Str)
  | resolve (q : TrackQuery)
  | enqueue (q : TrackQuery)
  | showQueue
  | registerPlay (q : TrackQuery)
  | spotifyPlay (url : Str)
  | spotifyOpen (url : Str)
  | showSuperCollection
  | setFilter (s : Str)
  | createDynPlaylist (title ptype : Str) (mode : GeneratorMode)
  | commitRevision (d : StationDraft)
  | createBookmarksPlaylist
  | bookmarkAppend (q : TrackQuery)
  | showPlaylistOnRevision
deriving DecidableEq, Repr

/-- Recognizer for the revision-commit effect. -/
def isCommitRevision : Effect → Bool
  | .commitRevision _ => true
  | _ => false

/-! ## Command handlers -/

/-- `GlobalActionManager::handlePlaylistCommand`.  Every branch of the
source (including the successful `import` and `new` ones) falls through to
the final `return false`. -/
def handlePlaylistCommand (u : ParsedUrl) : Bool × List Effect :=
  match u.pathSegs.drop 1 with
  | [] => (false, [])
  | p0 :: _ =>
    if p0 = str "import" then
      if hasQueryItem u (str "xspf") = false then (false, [])
      else
        let t := if hasQueryItem u (str "title") then queryItemValue u (str "title") else []
        (false, [Effect.xspfImport (queryItemValue u (str "xspf")) t])
    else if p0 = str "new" then
      if hasQueryItem u (str "title") = false then (false, [])
      else (false, [Effect.createPlaylist (queryItemValue u (str "title"))])
    else if p0 = str "add" then
      (false, [])
    else (false, [])

/-- `GlobalActionManager::handleCollectionCommand`: the `add` branch is a
TODO in the source; every path returns false with no effect. -/
def handleCollectionCommand (u : ParsedUrl) : Bool × List Effect :=
  match u.pathSegs.drop 1 with
  | [] => (false, [])
  | _ :: _ => (false, [])

/-- `GlobalActionManager::handleOpenTrack`: append to the queue, show it,
and when the audio engine is idle register the query as the one waited on
for playback. -/
def handleOpenTrackEffects (audioPlaying : Bool) (q : TrackQuery) : List Effect :=
  [Effect.enqueue q, Effect.showQueue] ++
    (if audioPlaying then [] else [Effect.registerPlay q])

/-- `QFileInfo(path).baseName()`: file name after the last `/`, up to the
first `.`. -/
def qbaseName (p : Str) : Str :=
  ((p.splitOn '/').getLastD []).takeWhile (fun c => c != '.')

/-- Drop everything up to and including the first `://`. -/
def afterScheme : Str → Str
  | ':' :: '/' :: '/' :: rest => rest
  | _ :: rest => afterScheme rest
  | [] => []

/-- Path component of a URL string (after scheme and authority), the part
`QUrl::fromUserInput(s).path()` hands to `QFileInfo`. -/
def qurlPath (s : Str) : Str :=
  if hasSubstr (str "://") s then
    (afterScheme s).dropWhile (fun c => c != '/')
  else s

/-- `GlobalActionManager::doQueueAdd`. -/
def doQueueAdd (audioPlaying : Bool) (parts : List Str)
    (queryItems : List (Str × Str)) : Bool × List Effect :=
  match parts with
  | [] => (false, [])
  | p0 :: _ =>
    if p0 = str "track" then
      let spUrl := scanSpotify queryItems
      if spUrl ≠ [] then (true, [Effect.spotifyOpen spUrl])
      else
        let s := scanTrackParams queryItems
        if s.title ≠ [] ∨ s.artist ≠ [] ∨ s.album ≠ [] then
          let q := mkTrackQuery s
          (true, Effect.resolve q :: handleOpenTrackEffects audioPlaying q)
        else
          match queryItems.find? (fun p => p.1 == str "url") with
          | some p =>
            if (str "file://").isPrefixOf p.2 then (true, [])
            else
              let q : TrackQuery :=
                { artist := [], title := qbaseName (qurlPath p.2), album := []
                  hint := some p.2 }
              (true, [Effect.resolve q, Effect.enqueue q, Effect.showQueue])
          | none => (false, [])
    else (false, [])

/-- `GlobalActionManager::handleQueueCommand`: the `add` branch runs
`doQueueAdd` but discards its result; every path returns false. -/
def handleQueueCommand (audioPlaying : Bool) (u : ParsedUrl) : Bool × List Effect :=
  match u.pathSegs.drop 1 with
  | [] => (false, [])
  | p0 :: rest =>
    if p0 = str "add" then
      (false, (doQueueAdd audioPlaying rest u.queryItems).2)
    else (false, [])

/-- `GlobalActionManager::handleOpenCommand`: passes the whole remaining
part list (not its tail) to `doQueueAdd` and returns its result. -/
def handleOpenCommand (audioPlaying : Bool) (u : ParsedUrl) : Bool × List Effect :=
  match u.pathSegs.drop 1 with
  | [] => (false, [])
  | p0 :: rest => doQueueAdd audioPlaying (p0 :: rest) u.queryItems

/-- `GlobalActionManager::handleSearchCommand`. -/
def handleSearchCommand (u : ParsedUrl) : Bool × List Effect :=
  let fields :=
    (if hasQueryItem u (str "artist") then [queryItemValue u (str "artist")] else []) ++
    (if hasQueryItem u (str "album") then [queryItemValue u (str "album")] else []) ++
    (if hasQueryItem u (str "title") then [queryItemValue u (str "title")] else [])
  let queryStr := List.intercalate (str " ") fields
  if queryStr = [] then (false, [])
  else (true, [Effect.showSuperCollection, Effect.setFilter queryStr])

/-- `GlobalActionManager::loadDynamicPlaylist`: the returned draft (`none`
models the null `dynplaylist_ptr`). -/
def loadDynamicPlaylist (station : Bool) (u : ParsedUrl) : Option StationDraft :=
  match u.pathSegs.drop 1 with
  | [] => none
  | p0 :: _ =>
    if p0 = str "create" then
      if hasQueryItem u (str "title") = false ∨ hasQueryItem u (str "type") = false then
        none
      else
        let m := if station then GeneratorMode.OnDemand else GeneratorMode.Static
        some { mode := m
               title := queryItemValue u (str "title")
               ptype := queryItemValue u (str "type")
               controls := buildControls u.queryItems
               withEntries := decide (m = GeneratorMode.Static) }
    else none

/-- Effects of `loadDynamicPlaylist` on success: the playlist is created
and exactly one new revision is committed (`createNewRevision` is called
once in either mode branch). -/
def loadDynamicEffects (station : Bool) (u : ParsedUrl) : List Effect :=
  match loadDynamicPlaylist station u with
  | some d => [Effect.createDynPlaylist d.title d.ptype d.mode, Effect.commitRevision d]
  | none => []

/-- `GlobalActionManager::handleStationCommand`:
`!loadDynamicPlaylist(url, true).isNull()`. -/
def handleStationCommand (u : ParsedUrl) : Bool × List Effect :=
  ((loadDynamicPlaylist true u).isSome, loadDynamicEffects true u)

/-- `GlobalActionManager::handleAutoPlaylistCommand`:
`!loadDynamicPlaylist(url, false).isNull()`. -/
def handleAutoPlaylistCommand (u : ParsedUrl) : Bool × List Effect :=
  ((loadDynamicPlaylist false u).isSome, loadDynamicEffects false u)

/-- `GlobalActionManager::handlePlayCommand`. -/
def handlePlayCommand (u : ParsedUrl) : Bool × List Effect :=
  match u.pathSegs.drop 1 with
  | [] => (false, [])
  | p0 :: _ =>
    if p0 = str "track" then
      if hasQueryItem u (str "spotifyURI") || hasQueryItem u (str "spotifyURL") then
        let sUrl :=
          if hasQueryItem u (str "spotifyURI") then queryItemValue u (str "spotifyURI")
          else queryItemValue u (str "spotifyURL")
        (true, [Effect.spotifyPlay sUrl])
      else
        let q := mkTrackQuery (scanTrackParams u.queryItems)
        (true, [Effect.resolve q, Effect.registerPlay q])
    else (false, [])

/-- `GlobalActionManager::handleBookmarkCommand` (present in the source but
not reachable from `parseTomahawkLink`, which routes `bookmark` to
`handlePlayCommand`).  `bookmarksExists` models whether
`LocalCollection::bookmarksPlaylist()` is already non-null; when it is not,
the append is deferred until the `bookmarkPlaylistCreated` signal. -/
def handleBookmarkCommand (bookmarksExists : Bool) (u : ParsedUrl) : Bool × List Effect :=
  match u.pathSegs.drop 1 with
  | [] => (false, [])
  | p0 :: _ =>
    if p0 = str "track" then
      let q := mkTrackQuery (scanTrackParams u.queryItems)
      (true, Effect.resolve q ::
        (if bookmarksExists then [Effect.bookmarkAppend q, Effect.showPlaylistOnRevision]
         else [Effect.createBookmarksPlaylist]))
    else (false, [])

/-! ## Top-level link parsing and dispatch -/

/-- Result of `parseTomahawkLink`: whether the `tomahawk://` scheme test
passed, the boolean the function returns, and the effects performed. -/
structure ParseResult where
  schemeMatched : Bool
  accepted : Bool
  effects : List Effect
deriving DecidableEq, Repr

/-- The category dispatch chain of `parseTomahawkLink` (`bookmark` is
routed to `handlePlayCommand` in the source). -/
def dispatchCategory (audioPlaying : Bool) (cmdType : Str) (u : ParsedUrl) :
    Bool × List Effect :=
  if cmdType = str "playlist" then handlePlaylistCommand u
  else if cmdType = str "collection" then handleCollectionCommand u
  else if cmdType = str "queue" then handleQueueCommand audioPlaying u
  else if cmdType = str "station" then handleStationCommand u
  else if cmdType = str "autoplaylist" then handleAutoPlaylistCommand u
  else if cmdType = str "search" then handleSearchCommand u
  else if cmdType = str "play" then handlePlayCommand u
  else if cmdType = str "bookmark" then handlePlayCommand u
  else if cmdType = str "open" then handleOpenCommand audioPlaying u
  else (false, [])

/-- Body of `parseTomahawkLink` after the scheme test: legacy `load`
aliases first, then the category chain. -/
def parseCommand (audioPlaying : Bool) (cmd : Str) : ParseResult :=
  let cmdType := (cmd.splitOn '/').headI
  let u := parseUrl cmd
  if cmdType = str "load" then
    if hasQueryItem u (str "xspf") then
      { schemeMatched := true, accepted := true
        effects := [Effect.legacyXspf (queryItemValue u (str "xspf"))] }
    else if hasQueryItem u (str "jspf") then
      { schemeMatched := true, accepted := true
        effects := [Effect.legacyJspf (queryItemValue u (str "jspf"))] }
    else
      let r := dispatchCategory audioPlaying cmdType u
      { schemeMatched := true, accepted := r.1, effects := r.2 }
  else
    let r := dispatchCategory audioPlaying cmdType u
    { schemeMatched := true, accepted := r.1, effects := r.2 }

/-- `GlobalActionManager::parseTomahawkLink`: the scheme test is
`url.contains("tomahawk://")`, after which the first 11 characters are
stripped and `%2B` is rewritten to `%20`. -/
def parseTomahawkLink (audioPlaying : Bool) (s : Str) : ParseResult :=
  if hasSubstr (str "tomahawk://") s then
    parseCommand audioPlaying (replacePlus (s.drop 11))
  else
    { schemeMatched := false, accepted := false, effects := [] }

/-! ## Outbound link building -/

/-- `GlobalActionManager::hostname()`. -/
def hostname : Str := str "http://toma.hk"

/-- `GlobalActionManager::openLink(title, artist, album)`: the outbound
share link, built on the `http://toma.hk` origin with one query item per
non-empty field. -/
def openLink (title artist album : Str) : Str :=
  str "http://toma.hk/open/track/" ++
    renderQuery
      ((if title ≠ [] then [(str "title", title)] else []) ++
       (if artist ≠ [] then [(str "artist", artist)] else []) ++
       (if album ≠ [] then [(str "album", album)] else []))

/-! ## Resolution coordinator (`m_waitingToPlay` and `waitingForResolved`) -/

/-- A query as seen by the coordinator: its object identity (the pointer
compared by `m_waitingToPlay.data() != sender()`) and whether it reports
playable at callback time. -/
structure RQuery where
  qid : Nat
  playable : Bool
deriving DecidableEq, Repr

/-- Registration for the play kind (`m_waitingToPlay = q` together with the
`connect(q, resolvingFinished, waitingForResolved)` in `handlePlayCommand`;
the signal of the previous query is not disconnected, so its callback may still
arrive and is filtered by identity instead). -/
def registerPlay (st : Option RQuery) (q : RQuery) : Option RQuery :=
  let _ := st
  some q

/-- `GlobalActionManager::waitingForResolved`: identity mismatch clears the
slot and returns; a matching playable query triggers playback and clears the
slot; a matching unplayable query leaves the slot untouched.  The boolean
records whether `AudioEngine::play()` was invoked. -/
def waitingForResolved (st : Option RQuery) (sender : RQuery) : Option RQuery × Bool :=
  match st with
  | none => (none, false)
  | some q =>
    if q.qid = sender.qid then
      if q.playable then (none, true) else (some q, false)
    else (none, false)

/-- Deliver a list of completion callbacks in order, collecting the queries
for which playback was triggered. -/
def runCallbacks (st : Option RQuery) : List RQuery → Option RQuery × List RQuery
  | [] => (st, [])
  | c :: cs =>
    let r := waitingForResolved st c
    let rest := runCallbacks r.1 cs
    (rest.1, (if r.2 then [c] else []) ++ rest.2)

/-! ## Payload classifier (`handleTrackUrls` and `expandedUrls`) -/

/-- What `handleTrackUrls` dispatches a freeform text payload to. -/
inductive TrackAction where
  | spotify (ts : List Str)
  | rdio (ts : List Str)
  | shorten (ts : List Str)
  | ignore
deriving DecidableEq, Repr

/-- `urls.split("\n")`. -/
def splitLines (s : Str) : List Str := s.splitOn '\n'

/-- `GlobalActionManager::handleTrackUrls`: priority dispatch on substring
tests; the `shorten` case hands the lines to a `ShortenedLinkParser` whose
`urls` signal is wired back to `expandedUrls`. -/
def handleTrackUrls (urls : Str) : TrackAction :=
  if hasSubstr (str "open.spotify.com/track") urls || hasSubstr (str "spotify:track") urls then
    .spotify (splitLines urls)
  else if hasSubstr (str "rdio.com") urls then
    .rdio (splitLines urls)
  else if hasSubstr (str "bit.ly") urls || hasSubstr (str "j.mp") urls ||
      hasSubstr (str "t.co") urls || hasSubstr (str "rd.io") urls then
    .shorten (splitLines urls)
  else .ignore

/-- `GlobalActionManager::expandedUrls`: the expansion results are joined
and fed straight back into `handleTrackUrls`. -/
def expandedUrls (urls : List Str) : TrackAction :=
  handleTrackUrls (List.intercalate (str "\n") urls)

/-! ## Helper lemmas -/

/-- One scan step, read off the `title` field. -/
theorem scanStep_title (acc : ScannedParams) (p : Str × Str) :
    (scanStep acc p).title = if p.1 = str "title" then p.2 else acc.title := by
  unfold scanStep
  by_cases h1 : p.1 = str "title"
  · rw [if_pos h1, if_pos h1]
  · rw [if_neg h1, if_neg h1]
    by_cases h2 : p.1 = str "artist"
    · rw [if_pos h2]
    · rw [if_neg h2]
      by_cases h3 : p.1 = str "album"
      · rw [if_pos h3]
      · rw [if_neg h3]
        by_cases h4 : p.1 = str "url"
        · rw [if_pos h4]
        · rw [if_neg h4]

/-- One scan step, read off the `artist` field. -/
theorem scanStep_artist (acc : ScannedParams) (p : Str × Str) :
    (scanStep acc p).artist = if p.1 = str "artist" then p.2 else acc.artist := by
  unfold scanStep
  by_cases h1 : p.1 = str "title"
  · have hne : ¬ p.1 = str "artist" := by rw [h1]; decide
    rw [if_pos h1, if_neg hne]
  · rw [if_neg h1]
    by_cases h2 : p.1 = str "artist"
    · rw [if_pos h2, if_pos h2]
    · rw [if_neg h2, if_neg h2]
      by_cases h3 : p.1 = str "album"
      · rw [if_pos h3]
      · rw [if_neg h3]
        by_cases h4 : p.1 = str "url"
        · rw [if_pos h4]
        · rw [if_neg h4]

/-- One scan step, read off the `album` field. -/
theorem scanStep_album (acc : ScannedParams) (p : Str × Str) :
    (scanStep acc p).album = if p.1 = str "album" then p.2 else acc.album := by
  unfold scanStep
  by_cases h1 : p.1 = str "title"
  · have hne : ¬ p.1 = str "album" := by rw [h1]; decide
    rw [if_pos h1, if_neg hne]
  · rw [if_neg h1]
    by_cases h2 : p.1 = str "artist"
    · have hne : ¬ p.1 = str "album" := by rw [h2]; decide
      rw [if_pos h2, if_neg hne]
    · rw [if_neg h2]
      by_cases h3 : p.1 = str "album"
      · rw [if_pos h3, if_pos h3]
      · rw [if_neg h3, if_neg h3]
        by_cases h4 : p.1 = str "url"
        · rw [if_pos h4]
        · rw [if_neg h4]

/-- One scan step, read off the `urlStr` field. -/
theorem scanStep_url (acc : ScannedParams) (p : Str × Str) :
    (scanStep acc p).urlStr = if p.1 = str "url" then p.2 else acc.urlStr := by
  unfold scanStep
  by_cases h1 : p.1 = str "title"
  · have hne : ¬ p.1 = str "url" := by rw [h1]; decide
    rw [if_pos h1, if_neg hne]
  · rw [if_neg h1]
    by_cases h2 : p.1 = str "artist"
    · have hne : ¬ p.1 = str "url" := by rw [h2]; decide
      rw [if_pos h2, if_neg hne]
    · rw [if_neg h2]
      by_cases h3 : p.1 = str "album"
      · have hne : ¬ p.1 = str "url" := by rw [h3]; decide
        rw [if_pos h3, if_neg hne]
      · rw [if_neg h3]
        by_cases h4 : p.1 = str "url"
        · rw [if_pos h4, if_pos h4]
        · rw [if_neg h4, if_neg h4]

/-- Value of the last occurrence of key `k` in a query-item list,
default `d` when the key is absent. -/
def lastValueD (k : Str) (qi : List (Str × Str)) (d : Str) : Str :=
  ((qi.filter (fun p => p.1 == k)).map Prod.snd).getLastD d

theorem lastValueD_cons (k : Str) (p : Str × Str) (t : List (Str × Str)) (d : Str) :
    lastValueD k (p :: t) d = lastValueD k t (if p.1 = k then p.2 else d) := by
  unfold lastValueD
  rw [List.filter_cons]
  by_cases h : p.1 = k
  · rw [if_pos (beq_iff_eq.mpr h), List.map_cons, List.getLastD_cons, if_pos h]
  · rw [if_neg (fun hb => h (beq_iff_eq.mp hb)), if_neg h]

theorem foldl_scan_title (qi : List (Str × Str)) :
    ∀ acc, (qi.foldl scanStep acc).title = lastValueD (str "title") qi acc.title := by
  induction qi with
  | nil => intro acc; rfl
  | cons p t ih =>
    intro acc
    rw [List.foldl_cons, ih, lastValueD_cons, scanStep_title]

theorem foldl_scan_artist (qi : List (Str × Str)) :
    ∀ acc, (qi.foldl scanStep acc).artist = lastValueD (str "artist") qi acc.artist := by
  induction qi with
  | nil => intro acc; rfl
  | cons p t ih =>
    intro acc
    rw [List.foldl_cons, ih, lastValueD_cons, scanStep_artist]

theorem foldl_scan_album (qi : List (Str × Str)) :
    ∀ acc, (qi.foldl scanStep acc).album = lastValueD (str "album") qi acc.album := by
  induction qi with
  | nil => intro acc; rfl
  | cons p t ih =>
    intro acc
    rw [List.foldl_cons, ih, lastValueD_cons, scanStep_album]

theorem foldl_scan_url (qi : List (Str × Str)) :
    ∀ acc, (qi.foldl scanStep acc).urlStr = lastValueD (str "url") qi acc.urlStr := by
  induction qi with
  | nil => intro acc; rfl
  | cons p t ih =>
    intro acc
    rw [List.foldl_cons, ih, lastValueD_cons, scanStep_url]

/-- Delivering callbacks to an empty slot does nothing: the mismatch branch
keeps clearing the already-empty slot and never plays. -/
theorem runCallbacks_none : ∀ cs : List RQuery, runCallbacks none cs = (none, []) := by
  intro cs
  induction cs with
  | nil => rfl
  | cons c cs ih => simp [runCallbacks, waitingForResolved, ih]

/-- Any query for which playback is triggered during a callback run shares
its identity with the query registered when the run started. -/
theorem runCallbacks_plays (cs : List RQuery) :
    ∀ st q, q ∈ (runCallbacks st cs).2 → ∃ q0, st = some q0 ∧ q.qid = q0.qid := by
  induction cs with
  | nil =>
    intro st q h
    simp [runCallbacks] at h
  | cons c cs ih =>
    intro st q h
    match st with
    | none =>
      rw [runCallbacks_none] at h
      simp at h
    | some q0 =>
      by_cases hq : q0.qid = c.qid
      · by_cases hp : q0.playable
        · simp [runCallbacks, waitingForResolved, hq, hp, runCallbacks_none] at h
          exact ⟨q0, rfl, by rw [h, ← hq]⟩
        · simp only [runCallbacks, waitingForResolved, hq, hp, if_true, if_false,
            ite_true, ite_false, List.nil_append] at h
          exact ih _ _ h
      · simp [runCallbacks, waitingForResolved, hq, runCallbacks_none] at h

/-- A prefix is in particular a substring. -/
theorem isPrefixOf_hasSubstr (pat l : Str) (h : pat.isPrefixOf l = true) :
    hasSubstr pat l = true := by
  cases l with
  | nil => simpa [hasSubstr] using h
  | cons c t => simp [hasSubstr, h]

/-- `replacePlus` leaves a leading character other than `%` in place. -/
theorem replacePlus_cons (c : Char) (l : Str) (h : ¬ c = '%') :
    replacePlus (c :: l) = c :: replacePlus l := by
  match l with
  | [] => rfl
  | [c2] => rfl
  | c2 :: c3 :: r =>
    show (if c = '%' ∧ c2 = '2' ∧ c3 = 'B' then '%' :: '2' :: '0' :: replacePlus r
          else c :: replacePlus (c2 :: c3 :: r)) = c :: replacePlus (c2 :: c3 :: r)
    exact if_neg (fun hx => h hx.1)

/-- The first component of `split` is the run of characters before the first
separator. -/
theorem splitOn_headI (c : Char) : ∀ l : Str,
    (l.splitOn c).headI = l.takeWhile (fun x => x != c) := by
  intro l
  induction l with
  | nil => rfl
  | cons x xs ih =>
    simp only [List.splitOn] at *
    rw [List.splitOnP_cons]
    by_cases hx : (x == c) = true
    · simp [hx]
      exact beq_iff_eq.mp hx
    · have hx2 : (x == c) = false := by simpa using hx
      have hbne : (x != c) = true := by simp [bne, hx2]
      cases hsp : xs.splitOnP (· == c) with
      | nil => exact absurd hsp (List.splitOnP_ne_nil _ xs)
      | cons hd tl =>
        rw [hsp] at ih
        rw [if_neg (by simp [hx2]), List.takeWhile_cons, if_pos hbne]
        simp only [List.modifyHead, List.headI] at ih ⊢
        rw [ih]

/-- `parseCommand` always reports that the scheme test passed. -/
theorem parseCommand_schemeMatched (ap : Bool) (cmd : Str) :
    (parseCommand ap cmd).schemeMatched = true := by
  simp only [parseCommand]
  split_ifs <;> rfl

/-- Joining a one-element list of lines is the line itself. -/
theorem intercalate_single (sep : Str) (s : Str) :
    List.intercalate sep [s] = s := by
  simp [List.intercalate]

/-! ## Claims -/

/-- C3: after `register(Play, q1)` followed by `register(Play, q2)` (with
distinct query identities), no sequence of completion callbacks delivered
afterwards — in any order — ever triggers playback for `q1`: every query for
which `waitingForResolved` starts playback has the identity of `q2`. -/
theorem C3_superseded_never_plays (st0 : Option RQuery) (q1 q2 : RQuery)
    (cs : List RQuery) (h : q1.qid ≠ q2.qid) :
    ((runCallbacks (registerPlay (registerPlay st0 q1) q2) cs).2).all
      (fun q => q.qid != q1.qid) = true := by
  rw [List.all_eq_true]
  intro q hq
  obtain ⟨q0, hst, hqid⟩ := runCallbacks_plays cs _ q hq
  have hq0 : q2 = q0 := by simpa [registerPlay] using hst
  simp only [bne_iff_ne, ne_eq]
  rw [hqid, ← hq0]
  omega

/-- C3 witness: concrete run with `q1 = ⟨1,·⟩`, `q2 = ⟨2,·⟩` and both
callbacks delivered, stale one first. -/
theorem C3_witness :
    ((runCallbacks (registerPlay (registerPlay none ⟨1, true⟩) ⟨2, true⟩)
        [⟨1, true⟩, ⟨2, true⟩]).2).all
      (fun q => q.qid != (⟨1, true⟩ : RQuery).qid) = true :=
  C3_superseded_never_plays none ⟨1, true⟩ ⟨2, true⟩ [⟨1, true⟩, ⟨2, true⟩] (by decide)

/-- C4 counterexample: a stale callback (sender identity 1 while query 2 is
registered) triggers nothing, but it does not leave the coordinator state
unchanged — the registered query is cleared (`m_waitingToPlay.clear()` in
the mismatch branch), so the claimed frame condition fails. -/
theorem C4_counterexample :
    waitingForResolved (some ⟨2, true⟩) ⟨1, true⟩ = (none, false) ∧
    (none : Option RQuery) ≠ some (⟨2, true⟩ : RQuery) := by decide

/-- C4 (amended): when the sender of the callback does not match the currently
registered query for the kind, no action is triggered, but the slot is
cleared — the registration becomes empty rather than being left unchanged. -/
theorem C4_stale_callback_clears (st : Option RQuery) (sender : RQuery)
    (h : ∀ q0, st = some q0 → q0.qid ≠ sender.qid) :
    waitingForResolved st sender = (none, false) := by
  match st with
  | none => rfl
  | some q0 => simp [waitingForResolved, h q0 rfl]

/-- C4 witness: the amended statement at the concrete mismatched pair. -/
theorem C4_witness : waitingForResolved (some ⟨2, true⟩) ⟨1, true⟩ = (none, false) :=
  C4_stale_callback_clears (some ⟨2, true⟩) ⟨1, true⟩
    (fun q0 hq => by injection hq with h2; rw [← h2]; decide)

/-- C5 counterexample: with the duplicate key `title` given values `A` then
`B`, the play handler builds the query from the *last* occurrence (`B`),
not the first (`A`) as the claim states. -/
theorem C5_counterexample :
    parseTomahawkLink false (str "tomahawk://play/track?title=A&title=B") =
      { schemeMatched := true, accepted := true,
        effects := [Effect.resolve ⟨[], str "B", [], none⟩,
                    Effect.registerPlay ⟨[], str "B", [], none⟩] } ∧
    str "B" ≠ str "A" := by decide

/-- C5 (amended): the scan loop shared by `handlePlayCommand`, `doQueueAdd`
and `handleBookmarkCommand` resolves duplicate keys by
*last*-occurrence-wins for each of `title`, `artist`, `album`, `url`
(`QUrl::queryItemValue`-based reads elsewhere return the first occurrence,
per `queryItemValue`). -/
theorem C5_scan_last_occurrence_wins (qi : List (Str × Str)) :
    (scanTrackParams qi).title = lastValueD (str "title") qi [] ∧
    (scanTrackParams qi).artist = lastValueD (str "artist") qi [] ∧
    (scanTrackParams qi).album = lastValueD (str "album") qi [] ∧
    (scanTrackParams qi).urlStr = lastValueD (str "url") qi [] :=
  ⟨foldl_scan_title qi _, foldl_scan_artist qi _, foldl_scan_album qi _,
   foldl_scan_url qi _⟩

/-- C6 counterexample: `buildControls({"danceability_max": "0.2"})` yields
one control whose match is `MinDanceability + 1` — not the bare
`MinDanceability` lower-bound constant (offset `0`), so the bound of the control
is not Lower as the claim states. -/
theorem C6_counterexample :
    buildControls [(str "danceability_max", str "0.2")] =
      [⟨str "Danceability", EchoConst.MinDanceability, 1, str "0.2"⟩] ∧
    buildControls [(str "danceability_max", str "0.2")] ≠
      [⟨str "Danceability", EchoConst.MinDanceability, 0, str "0.2"⟩] := by decide

/-- C6 (amended): for every continuous attribute the bare parameter name
yields the `Min…` (lower-bound) constant (offset `0`); the
`_max` suffix yields the adjacent constant at offset `-1` for tempo,
duration, loudness, artist_familiarity, artist_hotttnesss and
song_hotttnesss, and at offset `+1` for danceability, energy, longitude and
latitude — the inversion is in the direction of the enum offset, not in
which name denotes the lower bound. -/
theorem C6_offset_convention (v : Str) :
    (buildControls [(str "tempo", v)] = [⟨str "Tempo", .MinTempo, 0, v⟩] ∧
     buildControls [(str "tempo_max", v)] = [⟨str "Tempo", .MinTempo, -1, v⟩]) ∧
    (buildControls [(str "duration", v)] = [⟨str "Duration", .MinDuration, 0, v⟩] ∧
     buildControls [(str "duration_max", v)] = [⟨str "Duration", .MinDuration, -1, v⟩]) ∧
    (buildControls [(str "loudness", v)] = [⟨str "Loudness", .MinLoudness, 0, v⟩] ∧
     buildControls [(str "loudness_max", v)] = [⟨str "Loudness", .MinLoudness, -1, v⟩]) ∧
    (buildControls [(str "artist_familiarity", v)] =
        [⟨str "Artist Familiarity", .ArtistMinFamiliarity, 0, v⟩] ∧
     buildControls [(str "artist_familiarity_max", v)] =
        [⟨str "Artist Familiarity", .ArtistMinFamiliarity, -1, v⟩]) ∧
    (buildControls [(str "artist_hotttnesss", v)] =
        [⟨str "Artist Hotttnesss", .ArtistMinHotttnesss, 0, v⟩] ∧
     buildControls [(str "artist_hotttnesss_max", v)] =
        [⟨str "Artist Hotttnesss", .ArtistMinHotttnesss, -1, v⟩]) ∧
    (buildControls [(str "song_hotttnesss", v)] =
        [⟨str "Song Hotttnesss", .SongMinHotttnesss, 0, v⟩] ∧
     buildControls [(str "song_hotttnesss_max", v)] =
        [⟨str "Song Hotttnesss", .SongMinHotttnesss, -1, v⟩]) ∧
    (buildControls [(str "danceability", v)] =
        [⟨str "Danceability", .MinDanceability, 0, v⟩] ∧
     buildControls [(str "danceability_max", v)] =
        [⟨str "Danceability", .MinDanceability, 1, v⟩]) ∧
    (buildControls [(str "energy", v)] = [⟨str "Energy", .MinEnergy, 0, v⟩] ∧
     buildControls [(str "energy_max", v)] = [⟨str "Energy", .MinEnergy, 1, v⟩]) ∧
    (buildControls [(str "longitude", v)] =
        [⟨str "Longitude", .ArtistMinLongitude, 0, v⟩] ∧
     buildControls [(str "longitude_max", v)] =
        [⟨str "Longitude", .ArtistMinLongitude, 1, v⟩]) ∧
    (buildControls [(str "latitude", v)] =
        [⟨str "Latitude", .ArtistMinLatitude, 0, v⟩] ∧
     buildControls [(str "latitude_max", v)] =
        [⟨str "Latitude", .ArtistMinLatitude, 1, v⟩]) :=
  ⟨⟨rfl, rfl⟩, ⟨rfl, rfl⟩, ⟨rfl, rfl⟩, ⟨rfl, rfl⟩, ⟨rfl, rfl⟩, ⟨rfl, rfl⟩,
   ⟨rfl, rfl⟩, ⟨rfl, rfl⟩, ⟨rfl, rfl⟩, ⟨rfl, rfl⟩⟩

/-- C7 counterexample: a payload classified as a shortened link whose
expansion is again a shortener URL is *not* treated as unrecognized — the
re-classification dispatches another expansion (`TrackAction.shorten`),
contradicting the claimed one-level cap. -/
theorem C7_counterexample :
    handleTrackUrls (str "http://bit.ly/x1") =
      TrackAction.shorten [str "http://bit.ly/x1"] ∧
    expandedUrls [str "http://t.co/abc"] =
      TrackAction.shorten [str "http://t.co/abc"] ∧
    TrackAction.shorten [str "http://t.co/abc"] ≠ TrackAction.ignore := by decide

/-- C7 (amended): `expandedUrls` feeds expansion results straight back into
`handleTrackUrls` with no level counter, so an expanded URL that is itself a
shortener (and matches no streaming-service pattern) triggers a further
expansion instead of yielding an empty result — redirect chains are not
bounded by this layer. -/
theorem C7_expansion_reclassified (s : Str)
    (h1 : hasSubstr (str "open.spotify.com/track") s = false)
    (h2 : hasSubstr (str "spotify:track") s = false)
    (h3 : hasSubstr (str "rdio.com") s = false)
    (h4 : (hasSubstr (str "bit.ly") s || hasSubstr (str "j.mp") s ||
           hasSubstr (str "t.co") s || hasSubstr (str "rd.io") s) = true) :
    expandedUrls [s] = TrackAction.shorten (splitLines s) ∧
    expandedUrls [s] ≠ TrackAction.ignore := by
  have hj : expandedUrls [s] = handleTrackUrls s := by
    unfold expandedUrls
    rw [intercalate_single]
  constructor
  · rw [hj]; simp [handleTrackUrls, h1, h2, h3, h4]
  · rw [hj]; simp [handleTrackUrls, h1, h2, h3, h4]

/-- C7 witness: the amended statement at a concrete shortener URL. -/
theorem C7_witness :
    expandedUrls [str "http://t.co/abc"] =
      TrackAction.shorten (splitLines (str "http://t.co/abc")) ∧
    expandedUrls [str "http://t.co/abc"] ≠ TrackAction.ignore :=
  C7_expansion_reclassified (str "http://t.co/abc")
    (by decide) (by decide) (by decide) (by decide)

/-- C8 counterexample: `Xtomahawk://play/track` does not begin with the
scheme, yet the parser does not reject it as not-our-scheme — the test is
`contains`, not a prefix test, so this input proceeds to category matching
(on a garbled command). -/
theorem C8_counterexample :
    (str "tomahawk://").isPrefixOf (str "Xtomahawk://play/track") = false ∧
    (parseTomahawkLink false (str "Xtomahawk://play/track")).schemeMatched = true := by
  decide

/-- C8 (amended): `parseTomahawkLink` fails with the not-our-scheme
rejection exactly when `tomahawk://` occurs nowhere in the input
(`QString::contains`); in particular every input that does begin with the
scheme proceeds to category matching. -/
theorem C8_scheme_contains_check (ap : Bool) (s : Str) :
    ((parseTomahawkLink ap s).schemeMatched = false ↔
      hasSubstr (str "tomahawk://") s = false) ∧
    ((str "tomahawk://").isPrefixOf s = true →
      (parseTomahawkLink ap s).schemeMatched = true) := by
  constructor
  · by_cases h : hasSubstr (str "tomahawk://") s = true
    · simp [parseTomahawkLink, h, parseCommand_schemeMatched]
    · have h2 : hasSubstr (str "tomahawk://") s = false := by simpa using h
      simp [parseTomahawkLink, h2]
  · intro hp
    simp [parseTomahawkLink, isPrefixOf_hasSubstr _ _ hp, parseCommand_schemeMatched]

/-- C8 witness: the prefix direction at a concrete well-formed link. -/
theorem C8_witness :
    (parseTomahawkLink false (str "tomahawk://play/track")).schemeMatched = true :=
  (C8_scheme_contains_check false (str "tomahawk://play/track")).2 (by decide)

/-- C10: the `playlist`, `collection` and `queue` handlers return `false` on
every input — even when they perform their side effect — so the top-level
parse entry point never reports success for these categories; two concrete
links show the effect being performed while `false` is returned. -/
theorem C10_side_effect_categories_return_false :
    (∀ u : ParsedUrl, (handlePlaylistCommand u).1 = false) ∧
    (∀ u : ParsedUrl, (handleCollectionCommand u).1 = false) ∧
    (∀ (ap : Bool) (u : ParsedUrl), (handleQueueCommand ap u).1 = false) ∧
    parseTomahawkLink false (str "tomahawk://playlist/new?title=Foo") =
      { schemeMatched := true, accepted := false,
        effects := [Effect.createPlaylist (str "Foo")] } ∧
    parseTomahawkLink false (str "tomahawk://queue/add/track?title=Song") =
      { schemeMatched := true, accepted := false,
        effects := [Effect.resolve ⟨[], str "Song", [], none⟩,
                    Effect.enqueue ⟨[], str "Song", [], none⟩,
                    Effect.showQueue,
                    Effect.registerPlay ⟨[], str "Song", [], none⟩] } := by
  refine ⟨?_, ?_, ?_, by decide, by decide⟩
  · intro u
    unfold handlePlaylistCommand
    split
    · rfl
    · split_ifs <;> rfl
  · intro u
    unfold handleCollectionCommand
    split <;> rfl
  · intro ap u
    unfold handleQueueCommand
    split
    · rfl
    · split_ifs <;> rfl

/-- C9: for a station/autoplaylist `create` command, a missing `title` or
`type` rejects the command with no playlist committed; with both present,
exactly one revision is committed whose control list is built from the
parameters — empty when only `title` and `type` are supplied — and a
parameter matching no filter rule contributes nothing. -/
theorem C9_station_create (station : Bool) (u : ParsedUrl) (ps : List Str)
    (hseg : u.pathSegs.drop 1 = str "create" :: ps) :
    (hasQueryItem u (str "title") = false ∨ hasQueryItem u (str "type") = false →
       loadDynamicPlaylist station u = none ∧ loadDynamicEffects station u = []) ∧
    (hasQueryItem u (str "title") = true → hasQueryItem u (str "type") = true →
       (loadDynamicPlaylist station u).isSome = true ∧
       Option.map StationDraft.controls (loadDynamicPlaylist station u) =
         some (buildControls u.queryItems) ∧
       Option.map StationDraft.title (loadDynamicPlaylist station u) =
         some (queryItemValue u (str "title")) ∧
       Option.map StationDraft.ptype (loadDynamicPlaylist station u) =
         some (queryItemValue u (str "type")) ∧
       Option.map StationDraft.mode (loadDynamicPlaylist station u) =
         some (if station then GeneratorMode.OnDemand else GeneratorMode.Static) ∧
       (loadDynamicEffects station u).countP isCommitRevision = 1) ∧
    (∀ t ty, buildControls [(str "title", t), (str "type", ty)] = []) ∧
    (∀ (k v : Str) (rest : List (Str × Str)), controlOfParam (k, v) = none →
       buildControls ((k, v) :: rest) = buildControls rest) := by
  refine ⟨?_, ?_, ?_, ?_⟩
  · intro hor
    have hnone : loadDynamicPlaylist station u = none := by
      unfold loadDynamicPlaylist
      rw [hseg]
      rcases hor with h | h <;> simp [h]
    exact ⟨hnone, by simp [loadDynamicEffects, hnone]⟩
  · intro h1 h2
    have hsome : loadDynamicPlaylist station u =
        some { mode := if station then GeneratorMode.OnDemand else GeneratorMode.Static
               title := queryItemValue u (str "title")
               ptype := queryItemValue u (str "type")
               controls := buildControls u.queryItems
               withEntries := decide
                 ((if station then GeneratorMode.OnDemand else GeneratorMode.Static) =
                   GeneratorMode.Static) } := by
      unfold loadDynamicPlaylist
      rw [hseg]
      simp [h1, h2]
    refine ⟨by simp [hsome], by simp [hsome], by simp [hsome], by simp [hsome],
            by simp [hsome], ?_⟩
    simp [loadDynamicEffects, hsome, List.countP_cons, isCommitRevision]
  · intro t ty; rfl
  · intro k v rest hc
    simp [buildControls, List.filterMap_cons, hc]

/-- C9 witness: a concrete `station/create` link with `title` and `type` but
no filter parameters commits one revision with an empty control list. -/
theorem C9_witness :
    (loadDynamicPlaylist true
        ⟨[str "station", str "create"],
         [(str "title", str "Jazz"), (str "type", str "echonest")]⟩).isSome = true ∧
    Option.map StationDraft.controls (loadDynamicPlaylist true
        ⟨[str "station", str "create"],
         [(str "title", str "Jazz"), (str "type", str "echonest")]⟩) =
      some (buildControls [(str "title", str "Jazz"), (str "type", str "echonest")]) ∧
    Option.map StationDraft.title (loadDynamicPlaylist true
        ⟨[str "station", str "create"],
         [(str "title", str "Jazz"), (str "type", str "echonest")]⟩) =
      some (queryItemValue
        ⟨[str "station", str "create"],
         [(str "title", str "Jazz"), (str "type", str "echonest")]⟩ (str "title")) ∧
    Option.map StationDraft.ptype (loadDynamicPlaylist true
        ⟨[str "station", str "create"],
         [(str "title", str "Jazz"), (str "type", str "echonest")]⟩) =
      some (queryItemValue
        ⟨[str "station", str "create"],
         [(str "title", str "Jazz"), (str "type", str "echonest")]⟩ (str "type")) ∧
    Option.map StationDraft.mode (loadDynamicPlaylist true
        ⟨[str "station", str "create"],
         [(str "title", str "Jazz"), (str "type", str "echonest")]⟩) =
      some (if true then GeneratorMode.OnDemand else GeneratorMode.Static) ∧
    (loadDynamicEffects true
        ⟨[str "station", str "create"],
         [(str "title", str "Jazz"), (str "type", str "echonest")]⟩).countP
      isCommitRevision = 1 :=
  (C9_station_create true
      ⟨[str "station", str "create"],
       [(str "title", str "Jazz"), (str "type", str "echonest")]⟩ [] rfl).2.1
    (by decide) (by decide)

/-- C2: an inbound `bookmark` link is routed by `parseTomahawkLink` to
`handlePlayCommand` — it resolves the track and registers it for playback,
and never touches the bookmarks playlist — while the unreachable
`handleBookmarkCommand` in the same file implements exactly the behaviour
the claim describes (append when the playlist exists; create it and defer
the append when it does not). -/
theorem C2_bookmark_routed_to_play :
    parseTomahawkLink false (str "tomahawk://bookmark/track?title=Uprising&artist=Muse") =
      { schemeMatched := true, accepted := true,
        effects := [Effect.resolve ⟨str "Muse", str "Uprising", [], none⟩,
                    Effect.registerPlay ⟨str "Muse", str "Uprising", [], none⟩] } ∧
    handleBookmarkCommand true (parseUrl (str "bookmark/track?title=Uprising&artist=Muse")) =
      (true, [Effect.resolve ⟨str "Muse", str "Uprising", [], none⟩,
              Effect.bookmarkAppend ⟨str "Muse", str "Uprising", [], none⟩,
              Effect.showPlaylistOnRevision]) ∧
    handleBookmarkCommand false (parseUrl (str "bookmark/track?title=Uprising&artist=Muse")) =
      (true, [Effect.resolve ⟨str "Muse", str "Uprising", [], none⟩,
              Effect.createBookmarksPlaylist]) := by decide

/-- After the dispatcher strips 11 characters from an `openLink` URL, the
remaining command starts with `.hk/…`, whose category token `.hk` matches
nothing: the parse falls through to the rejecting catch-all. -/
theorem parse_dot_hk (ap : Bool) (z : Str) :
    parseCommand ap (replacePlus (str ".hk/open/track/" ++ z)) =
      { schemeMatched := true, accepted := false, effects := [] } := by
  have e : str ".hk/open/track/" ++ z =
      '.' :: 'h' :: 'k' :: '/' :: (str "open/track/" ++ z) := by
    rw [show str ".hk/open/track/" = '.' :: 'h' :: 'k' :: '/' :: str "open/track/"
          from by decide]
    simp [List.cons_append]
  have h1 : replacePlus (str ".hk/open/track/" ++ z) =
      '.' :: 'h' :: 'k' :: '/' :: replacePlus (str "open/track/" ++ z) := by
    rw [e, replacePlus_cons _ _ (by decide), replacePlus_cons _ _ (by decide),
        replacePlus_cons _ _ (by decide), replacePlus_cons _ _ (by decide)]
  have h2 : ((replacePlus (str ".hk/open/track/" ++ z)).splitOn '/').headI = str ".hk" := by
    rw [h1, splitOn_headI]
    rw [List.takeWhile_cons, if_pos (by decide), List.takeWhile_cons, if_pos (by decide),
        List.takeWhile_cons, if_pos (by decide), List.takeWhile_cons, if_neg (by decide)]
    decide
  simp only [parseCommand]
  rw [h2]
  rw [if_neg (by decide)]
  simp only [dispatchCategory]
  rw [if_neg (by decide), if_neg (by decide), if_neg (by decide), if_neg (by decide),
      if_neg (by decide), if_neg (by decide), if_neg (by decide), if_neg (by decide),
      if_neg (by decide)]

/-- C1 counterexample: decoding the text produced by encoding a concrete
track fails outright — `openLink` emits an `http://toma.hk` link, which
`parseTomahawkLink` rejects as not containing the scheme. -/
theorem C1_counterexample :
    parseTomahawkLink false (openLink (str "Uprising") (str "Muse") []) =
      { schemeMatched := false, accepted := false, effects := [] } := by decide

/-- C1 (amended): for every title/artist/album, decoding the encoded
outbound link always fails with no side effect: the link is built on the
`http://toma.hk` origin, which either fails the `tomahawk://` containment
test outright or — when a parameter value happens to contain the scheme
text — is stripped into a command whose category token is `.hk`, matching
no category. -/
theorem C1_decode_of_encode_rejected (ap : Bool) (t a b : Str) :
    (parseTomahawkLink ap (openLink t a b)).accepted = false ∧
    (parseTomahawkLink ap (openLink t a b)).effects = [] := by
  have hz : openLink t a b = str "http://toma" ++ (str ".hk/open/track/" ++
      renderQuery
        ((if t ≠ [] then [(str "title", t)] else []) ++
         (if a ≠ [] then [(str "artist", a)] else []) ++
         (if b ≠ [] then [(str "album", b)] else []))) := by
    unfold openLink
    rw [show str "http://toma.hk/open/track/" = str "http://toma" ++ str ".hk/open/track/"
          from by decide, List.append_assoc]
  by_cases h : hasSubstr (str "tomahawk://") (openLink t a b) = true
  · unfold parseTomahawkLink
    rw [if_pos h, hz]
    rw [show (11 : Nat) = (str "http://toma").length from by decide, List.drop_left]
    rw [parse_dot_hk]
    exact ⟨rfl, rfl⟩
  · unfold parseTomahawkLink
    rw [if_neg h]
    exact ⟨rfl, rfl⟩

end Tomahawk
